import Mathlib

set_option linter.unusedVariables false

/-!
# Verification of the identification-and-classification pipeline

Shallow embedding of the core of the `nn-exercise` repository:
the Wikipedia lookup (`search_tools.py`), the LLM backend and fallback
orchestrator (`llm_backend.py`), the categorizer and report aggregation
(`exercise4.py`), and the per-person tool entry points (`exercise5.py`).

Network calls are modelled as explicit inputs (an outcome per HTTP call,
or an oracle of responses); Python exceptions that a function lets escape
are modelled with `Except`; Python dictionaries built by insertion are
modelled as association lists with insertion-order-preserving update.
-/

/-! ## String utilities: Python's `in` (substring) and `.lower()` -/

/-- `subAt needle hay` is true when `needle` is a prefix of `hay`. -/
def subAt : List Char → List Char → Bool
  | [], _ => true
  | _ :: _, [] => false
  | a :: as, b :: bs => a == b && subAt as bs

/-- `hasSub needle hay` is true when `needle` occurs contiguously in `hay`:
Python's `needle in hay` on strings, over the character lists. -/
def hasSub (needle : List Char) : List Char → Bool
  | [] => subAt needle []
  | c :: t => subAt needle (c :: t) || hasSub needle t

/-- Python's `needle in hay` for strings. -/
def strContains (hay needle : String) : Bool :=
  hasSub needle.data hay.data

/-- Python's `str.lower()` (ASCII-adequate, as used by the source). -/
def strToLower (s : String) : String :=
  String.mk (s.data.map Char.toLower)

/-! ## Categorizer (`exercise4.categorize_identification`) -/

/-- The dictionary returned by `categorize_identification`. -/
structure CategorizedResult where
  name : String
  category : String
  confidence : String
  details : String
deriving DecidableEq, Repr

/-- The keyword list of rule 4 of `categorize_identification`. -/
def fictionalKeywords : List String :=
  ["fictional", "character", "anime", "movie", "tv show", "novel"]

/-- The `if/elif/else` chain of `categorize_identification` computing the
`(category, confidence)` pair (src/exercise4.py lines 51-75). -/
def categoryOf (identification : String) : String × String :=
  if strContains identification "(Source: Wikipedia -" then
    ("✅ Verified Notable Person", "High")
  else if strContains identification "Error" || strContains identification "error" then
    ("⚠️ Error", "N/A")
  else if strContains identification "No Wikipedia article found" then
    if strContains identification "Unknown person" then
      ("❌ Unknown/Non-Notable", "Low")
    else
      ("⚠️ Possibly Notable (Unverified)", "Medium")
  else if fictionalKeywords.any (fun kw => strContains (strToLower identification) kw) then
    ("🎭 Fictional Character", "High")
  else
    ("❌ Unknown/Non-Notable", "Low")

/-- `exercise4.categorize_identification`: builds the result dict from the
computed category/confidence and the two inputs passed through. -/
def categorize_identification (full_name identification : String) : CategorizedResult :=
  { name := full_name
    category := (categoryOf identification).1
    confidence := (categoryOf identification).2
    details := identification }

/-! ### Spec-side categorizer (written from the spec's §4.4 rule list),
used to state the refinement claim C3. -/

/-- Spec §3: closed category enumeration. -/
inductive Category where
  | VerifiedNotable
  | PossiblyNotableUnverified
  | FictionalCharacter
  | UnknownNonNotable
  | Error
deriving DecidableEq, Repr

/-- Spec §3: closed confidence enumeration. -/
inductive Confidence where
  | High
  | Medium
  | Low
  | NotApplicable
deriving DecidableEq, Repr

/-- Case-insensitive substring containment, the spec's wording for rule 4. -/
def containsCI (hay needle : String) : Bool :=
  strContains (strToLower hay) (strToLower needle)

/-- Spec §4.4: the five classification rules, first match wins. -/
def specCategory (identification : String) : Category × Confidence :=
  if strContains identification "(Source: Wikipedia -" then
    (Category.VerifiedNotable, Confidence.High)
  else if strContains identification "Error" || strContains identification "error" then
    (Category.Error, Confidence.NotApplicable)
  else if strContains identification "No Wikipedia article found" then
    if strContains identification "Unknown person" then
      (Category.UnknownNonNotable, Confidence.Low)
    else
      (Category.PossiblyNotableUnverified, Confidence.Medium)
  else if fictionalKeywords.any (fun kw => containsCI identification kw) then
    (Category.FictionalCharacter, Confidence.High)
  else
    (Category.UnknownNonNotable, Confidence.Low)

/-- The display string the code uses for each spec category. -/
def renderCategory : Category → String
  | Category.VerifiedNotable => "✅ Verified Notable Person"
  | Category.PossiblyNotableUnverified => "⚠️ Possibly Notable (Unverified)"
  | Category.FictionalCharacter => "🎭 Fictional Character"
  | Category.UnknownNonNotable => "❌ Unknown/Non-Notable"
  | Category.Error => "⚠️ Error"

/-- The display string the code uses for each spec confidence level. -/
def renderConfidence : Confidence → String
  | Confidence.High => "High"
  | Confidence.Medium => "Medium"
  | Confidence.Low => "Low"
  | Confidence.NotApplicable => "N/A"

/-! ## Lookup result and the fallback orchestrator
(`llm_backend.LLMBackend.identify_person_with_search`) -/

/-- The dictionary produced by `WikipediaSearch.search_person` as consumed by
the orchestrator, with the spec's §3 field types (string-valued fields;
`none` models an absent key or an explicit Python `None`, which Python's
`dict.get` makes indistinguishable). -/
structure LookupResult where
  found : Bool
  name : String
  title : Option String := none
  summary : Option String := none
  url : Option String := none
  error : Option String := none
deriving DecidableEq, Repr

/-- Python truthiness of `result.get(key)` for an optional string field:
false for a missing key, an explicit `None`, and the empty string. -/
def truthyS : Option String → Bool
  | none => false
  | some s => s ≠ ""

/-- The summarization prompt f-string built by `identify_person_with_search`
(src/llm_backend.py lines 125-130). -/
def summarizePrompt (r : LookupResult) : String :=
  "Based on this Wikipedia information about " ++ r.name ++ ":\n\n" ++
    r.summary.getD "" ++
    "\n\nProvide a concise 1-2 sentence summary of who they are and what they're known for.\nInclude their profession/field and main achievement."

/-- `LLMBackend.identify_person_with_search`, with the two generative calls
abstracted as functions: `inv` is `self.invoke` (the freeform call used to
summarize) and `idf` is `self.identify_person`; the Wikipedia lookup result
is passed in as `r`. -/
def identify_person_with_search (inv : String → String) (idf : String → String → String)
    (r : LookupResult) (first last : String) : String :=
  if r.found && truthyS r.summary then
    let identification := inv (summarizePrompt r)
    if truthyS r.url then
      identification ++ "\n\n(Source: Wikipedia - " ++ r.url.getD "" ++ ")"
    else
      identification
  else
    let fallback := idf first last
    if truthyS r.error then
      fallback ++ "\n\n(Note: Wikipedia search encountered an error)"
    else
      fallback ++ "\n\n(Note: No Wikipedia article found)"

/-! ## Python JSON values and the operations the source performs on them -/

/-- A Python value as produced by `response.json()`. -/
inductive JVal where
  | null
  | jbool (b : Bool)
  | jnum (n : Int)
  | jstr (s : String)
  | jarr (xs : List JVal)
  | jobj (fs : List (String × JVal))

/-- The Python exceptions that the source's code paths can raise and that
its `except` clauses distinguish. -/
inductive PyErr where
  | indexError
  | keyError
  | typeError
  | attributeError
deriving DecidableEq, Repr

/-- A Python computation that may raise. -/
abbrev Py (α : Type) := Except PyErr α

/-- Python truthiness of a JSON value. -/
def pyTruthy : JVal → Bool
  | JVal.null => false
  | JVal.jbool b => b
  | JVal.jnum n => n ≠ 0
  | JVal.jstr s => s ≠ ""
  | JVal.jarr xs => !xs.isEmpty
  | JVal.jobj fs => !fs.isEmpty

/-- Python `v[i]` for an integer index `i ≥ 0`: lists and strings index,
dicts raise `KeyError` (their keys are strings), everything else raises
`TypeError`. -/
def pySubscript : JVal → Nat → Py JVal
  | JVal.jarr xs, i =>
      match xs.get? i with
      | some v => Except.ok v
      | none => Except.error PyErr.indexError
  | JVal.jstr s, i =>
      match s.data.get? i with
      | some c => Except.ok (JVal.jstr (String.mk [c]))
      | none => Except.error PyErr.indexError
  | JVal.jobj _, _ => Except.error PyErr.keyError
  | _, _ => Except.error PyErr.typeError

/-- Python `v[key]` for a string key: dicts look up (`KeyError` when
missing), everything else raises `TypeError`. -/
def pySubscriptKey (v : JVal) (key : String) : Py JVal :=
  match v with
  | JVal.jobj fs =>
      match fs.find? (fun p => p.1 == key) with
      | some p => Except.ok p.2
      | none => Except.error PyErr.keyError
  | _ => Except.error PyErr.typeError

/-- Python `len(v)`: defined for lists, strings and dicts, `TypeError`
otherwise. -/
def pyLen : JVal → Py Nat
  | JVal.jarr xs => Except.ok xs.length
  | JVal.jstr s => Except.ok s.data.length
  | JVal.jobj fs => Except.ok fs.length
  | _ => Except.error PyErr.typeError

/-- Python `v.get(key, dflt)`: only dicts have `.get`; a present key wins
even when its value is `None`. Any other receiver raises `AttributeError`. -/
def pyDictGetJ (v : JVal) (key : String) (dflt : JVal) : Py JVal :=
  match v with
  | JVal.jobj fs =>
      match fs.find? (fun p => p.1 == key) with
      | some p => Except.ok p.2
      | none => Except.ok dflt
  | _ => Except.error PyErr.attributeError

/-! ## Generative-text operations (`llm_backend.LLMBackend`) -/

/-- Outcome of one HTTP POST as seen by the source: either
`requests.post` raised (transport failure / timeout), or a response with a
status code and a body whose JSON decoding may itself fail. -/
inductive HttpResp where
  | transportFail (reason : String)
  | resp (status : Nat) (body : Except String JVal)

/-- `data["choices"][0]["message"]["content"].strip()` — the response
traversal both `identify_person` and `invoke` perform on a 200 body. -/
def getMessageContent (data : JVal) : Py String := do
  let choices ← pySubscriptKey data "choices"
  let first ← pySubscript choices 0
  let message ← pySubscriptKey first "message"
  let content ← pySubscriptKey message "content"
  match content with
  | JVal.jstr s => Except.ok s.trim
  | _ => Except.error PyErr.attributeError

/-- A short description of a caught Python exception, standing in for
Python's `str(e)` (the exact wording of `str(e)` is not modelled; no claim
inspects it). -/
def pyErrText : PyErr → String
  | PyErr.indexError => "list index out of range"
  | PyErr.keyError => "missing key"
  | PyErr.typeError => "type error"
  | PyErr.attributeError => "attribute error"

/-- `LLMBackend.identify_person` (src/llm_backend.py lines 48-100): the
whole body is wrapped in `try/except Exception`, so every failure is
returned as an `"Error identifying person: ..."` string and the function
is total. -/
def identify_person (first last : String) (out : HttpResp) : String :=
  match out with
  | HttpResp.transportFail reason => "Error identifying person: " ++ reason
  | HttpResp.resp status body =>
      if status ≠ 200 then
        "Error identifying person: Error code: " ++ toString status
      else
        match body with
        | Except.error reason => "Error identifying person: " ++ reason
        | Except.ok data =>
            match getMessageContent data with
            | Except.ok s => s
            | Except.error e => "Error identifying person: " ++ pyErrText e

/-- `LLMBackend.invoke` (src/llm_backend.py lines 190-232): same shape with
the `"Error: ..."` message family. The prompt does not influence the
modelled output; it is kept to mirror the source signature. -/
def invoke (prompt : String) (maxTokens : Nat) (out : HttpResp) : String :=
  match prompt, maxTokens, out with
  | _, _, HttpResp.transportFail reason => "Error: " ++ reason
  | _, _, HttpResp.resp status body =>
      if status ≠ 200 then
        "Error: API returned status " ++ toString status
      else
        match body with
        | Except.error reason => "Error: " ++ reason
        | Except.ok data =>
            match getMessageContent data with
            | Except.ok s => s
            | Except.error e => "Error: " ++ pyErrText e

/-! ## Authoritative lookup (`search_tools.WikipediaSearch.search_person`)

The two HTTP GETs are inputs: `searchResp` is the OpenSearch call after
`raise_for_status()` and `.json()` (an `Except.error` covers any
`requests.RequestException`: transport failure, timeout, non-2xx status,
JSON decode failure), and `summaryResp` is the raw REST summary call.
The returned value models the Python dict: `none` is an absent key,
`some JVal.null` a key explicitly set to `None`. -/

/-- The dict built by `search_person`. `title`/`error` are only ever set to
strings by the source; `summary`/`url` can hold arbitrary JSON values. -/
structure SearchResult where
  found : Bool
  name : String
  title : Option String := none
  summary : Option JVal := none
  url : Option JVal := none
  error : Option String := none

/-- The `requests.RequestException` handler's return value
(src/search_tools.py lines 96-104). -/
def searchFail (full_name reason : String) : SearchResult :=
  { found := false, name := full_name, summary := some JVal.null,
    url := some JVal.null, error := some ("Wikipedia search failed: " ++ reason) }

/-- The no-candidates return value (src/search_tools.py lines 61-67):
`found=false` and no `error` key. -/
def noResultsFound (full_name : String) : SearchResult :=
  { found := false, name := full_name, summary := some JVal.null,
    url := some JVal.null }

/-- The `except (IndexError, KeyError)` handler's return value
(src/search_tools.py lines 105-113). The message stands in for Python's
`str(e)`; no claim inspects its exact wording. -/
def unexpectedFormat (full_name : String) : SearchResult :=
  { found := false, name := full_name, summary := some JVal.null,
    url := some JVal.null,
    error := some "Unexpected Wikipedia response format: unexpected structure" }

/-- The url expression of src/search_tools.py line 71:
`search_results[3][0] if len(search_results) > 3 and search_results[3]
else None`. -/
def urlFromSearch (sr : JVal) (lenSr : Nat) : Py JVal :=
  if 3 < lenSr then
    match pySubscript sr 3 with
    | Except.error e => Except.error e
    | Except.ok s3 =>
      if pyTruthy s3 then pySubscript s3 0 else Except.ok JVal.null
  else Except.ok JVal.null

/-- The fallback-description expression of src/search_tools.py line 86:
`search_results[2][0] if len(search_results) > 2 and search_results[2]
else ""`. -/
def fallbackSummary (sr : JVal) (lenSr : Nat) : Py JVal :=
  if 2 < lenSr then
    match pySubscript sr 2 with
    | Except.error e => Except.error e
    | Except.ok s2 =>
      if pyTruthy s2 then pySubscript s2 0 else Except.ok (JVal.jstr "")
  else Except.ok (JVal.jstr "")

/-- The body of the `try` block of `search_person`, step by step in source
order (src/search_tools.py lines 50-94). An `Except.error` is a Python
exception escaping the `try` body; caught transport failures
(`requests.RequestException`) are already encoded in the two call inputs
and produce their handler's dict inline. -/
def search_person_raw (first last : String) (searchResp : Except String JVal)
    (summaryResp : HttpResp) : Py SearchResult :=
  let full_name := first ++ " " ++ last
  match searchResp with
  | Except.error reason => Except.ok (searchFail full_name reason)
  | Except.ok sr =>
    match pySubscript sr 1 with
    | Except.error e => Except.error e
    | Except.ok titles =>
      if pyTruthy titles then
        match pySubscript titles 0 with
        | Except.error e => Except.error e
        | Except.ok titleV =>
          match pyLen sr with
          | Except.error e => Except.error e
          | Except.ok lenSr =>
            match urlFromSearch sr lenSr with
            | Except.error e => Except.error e
            | Except.ok urlV =>
              -- `title.replace(' ', '_')` when building the summary URL:
              -- only a `str` receiver has `.replace`.
              match titleV with
              | JVal.jstr titleStr =>
                match summaryResp with
                | HttpResp.transportFail reason => Except.ok (searchFail full_name reason)
                | HttpResp.resp status body =>
                  if status = 200 then
                    match body with
                    | Except.error reason => Except.ok (searchFail full_name reason)
                    | Except.ok sd =>
                      match pyDictGetJ sd "extract" (JVal.jstr "") with
                      | Except.error e => Except.error e
                      | Except.ok summaryV =>
                        Except.ok { found := true, name := full_name,
                                    title := some titleStr, summary := some summaryV,
                                    url := some urlV }
                  else
                    match fallbackSummary sr lenSr with
                    | Except.error e => Except.error e
                    | Except.ok summaryV =>
                      Except.ok { found := true, name := full_name,
                                  title := some titleStr, summary := some summaryV,
                                  url := some urlV }
              | _ => Except.error PyErr.attributeError
      else
        Except.ok (noResultsFound full_name)

/-- `WikipediaSearch.search_person`: the `try` body with its two `except`
clauses applied. `IndexError`/`KeyError` are turned into the
"unexpected format" dict; any other exception (`TypeError`,
`AttributeError`) escapes to the caller. -/
def search_person (first last : String) (searchResp : Except String JVal)
    (summaryResp : HttpResp) : Py SearchResult :=
  match search_person_raw first last searchResp summaryResp with
  | Except.ok r => Except.ok r
  | Except.error PyErr.indexError => Except.ok (unexpectedFormat (first ++ " " ++ last))
  | Except.error PyErr.keyError => Except.ok (unexpectedFormat (first ++ " " ++ last))
  | Except.error e => Except.error e

/-! ## Batch runner (`LLMBackend.batch_identify_people_with_search`) -/

/-- Python `d[k] = v` on an insertion-ordered dict, as an association list:
an existing key keeps its position and gets the new value, a new key is
appended. -/
def pyDictSet (d : List (String × String)) (k v : String) : List (String × String) :=
  if d.any (fun p => p.1 = k) then
    d.map (fun p => if p.1 = k then (k, v) else p)
  else
    d ++ [(k, v)]

/-- Lookup in the association-list dict. -/
def pyDictFind (d : List (String × String)) (k : String) : Option String :=
  (d.find? (fun p => p.1 = k)).map Prod.snd

/-- `f"{first_name} {last_name}"`. -/
def fullNameOf (p : String × String) : String := p.1 ++ " " ++ p.2

/-- The loop of `batch_identify_people_with_search`
(src/llm_backend.py lines 177-184): `k` counts the calls to
`identify_person_with_search` made so far, and `oracle k` is the string the
`k`-th call (0-based, in input order) returns. -/
def batchAux (oracle : Nat → String) :
    Nat → List (String × String) → List (String × String) → List (String × String)
  | _, [], acc => acc
  | k, p :: rest, acc => batchAux oracle (k + 1) rest (pyDictSet acc (fullNameOf p) (oracle k))

/-- `LLMBackend.batch_identify_people_with_search` with the per-person
orchestration abstracted as the call oracle. -/
def batch_identify_people_with_search (oracle : Nat → String)
    (people : List (String × String)) : List (String × String) :=
  batchAux oracle 0 people []

/-- Spec side: the first-seen-order list of keys of a mapping built by
repeated insertion. -/
def firstSeenKeys (names : List String) : List String :=
  names.foldl (fun acc n => if n ∈ acc then acc else acc ++ [n]) []

/-- Spec side: the index of the last occurrence of `n` in the list, where
the head of the list has index `k`. -/
def lastOccFrom (n : String) : Nat → List String → Option Nat
  | _, [] => none
  | k, m :: rest =>
    match lastOccFrom n (k + 1) rest with
    | some i => some i
    | none => if m = n then some k else none

/-- Spec side: the index of the last occurrence of `n` in `names`. -/
def lastOccIdx (names : List String) (n : String) : Option Nat :=
  lastOccFrom n 0 names 

/-! ## Per-person tool entry points (`exercise5.py`) -/

/-- Python `s.split(' ', 1)` over the character list: everything before the
first space, and, when a space exists, everything after it. -/
def splitOnceChars : List Char → List Char × Option (List Char)
  | [] => ([], none)
  | c :: rest =>
    if c = ' ' then ([], some rest)
    else
      let pr := splitOnceChars rest
      (c :: pr.1, pr.2)

/-- Python `person_name.split(' ', 1)`: a one-element list when the name
holds no space, a two-element list otherwise. -/
def pySplitOnce (s : String) : List String :=
  match splitOnceChars s.data with
  | (pre, none) => [String.mk pre]
  | (pre, some post) => [String.mk pre, String.mk post]

/-- `exercise5.search_wikipedia_for_person`: the Wikipedia lookup is
abstracted as `lookup`; the second component records the `(first, last)`
arguments of every lookup performed, so that "the network call is skipped"
is observable. -/
def search_wikipedia_for_person (lookup : String → String → LookupResult)
    (person_name : String) : String × List (String × String) :=
  match pySplitOnce person_name with
  | [first, last] =>
    let result := lookup first last
    if result.found && truthyS result.summary then
      let output := "Wikipedia article found for " ++ result.name ++ ":\n\n" ++
        result.summary.getD ""
      if truthyS result.url then
        (output ++ "\n\nSource: " ++ result.url.getD "", [(first, last)])
      else
        (output, [(first, last)])
    else
      ("No Wikipedia article found for " ++ person_name, [(first, last)])
  | _ => ("Invalid name format. Expected \x27FirstName LastName\x27", [])

/-- `exercise5.identify_person_with_llm`: the LLM call is abstracted as
`idf`; the second component records the `(first, last)` arguments of every
generative call performed. -/
def identify_person_with_llm (idf : String → String → String)
    (person_name : String) : String × List (String × String) :=
  match pySplitOnce person_name with
  | [first, last] => (idf first last, [(first, last)])
  | _ => ("Invalid name format. Expected \x27FirstName LastName\x27", [])

/-! ## Report aggregation (`exercise4.display_identifications` and
`exercise4.display_summary_statistics`)

The display functions are modelled by the values they compute and print;
a Python `ZeroDivisionError` is an `Except.error`. Python float division of
the small integers involved is modelled exactly by rationals. -/

/-- Python `a / b` on integers (true division): raises on `b = 0`. -/
def pyDivNat (a b : Nat) : Except String ℚ :=
  if b = 0 then Except.error "ZeroDivisionError: division by zero"
  else Except.ok ((a : ℚ) / (b : ℚ))

/-- `category_counts.get(cat, 0) + 1` insertion into the insertion-ordered
counts dict (src/exercise4.py lines 181-184). -/
def bumpCount (acc : List (String × Nat)) (c : String) : List (String × Nat) :=
  if acc.any (fun p => p.1 = c) then
    acc.map (fun p => if p.1 = c then (p.1, p.2 + 1) else p)
  else
    acc ++ [(c, 1)]

/-- The per-category counts dict of `display_summary_statistics`. -/
def countCategories (results : List CategorizedResult) : List (String × Nat) :=
  results.foldl (fun acc r => bumpCount acc r.category) []

/-- What `display_summary_statistics` computes and prints when there are
results. -/
structure SummaryStats where
  total : Nat
  categoryCounts : List (String × Nat)
  percentages : List (String × ℚ)
  verificationRate : ℚ
deriving DecidableEq, Repr

/-- `exercise4.display_summary_statistics` (lines 164-200): `Except.ok none`
is the early "No results to display" return on an empty input; otherwise the
per-category percentages and the verification-rate line are computed, each
with Python division. -/
def display_summary_statistics (results : List CategorizedResult) :
    Except String (Option SummaryStats) :=
  let total := results.length
  if total = 0 then
    Except.ok none
  else do
    let counts := countCategories results
    let pcts ← counts.mapM (fun p => do
      let q ← pyDivNat p.2 total
      pure (p.1, q * 100))
    let verified := ((counts.find? (fun p => p.1 = "✅ Verified Notable Person")).map
      Prod.snd).getD 0
    let rate ← pyDivNat verified total
    Except.ok (some { total := total, categoryCounts := counts,
                      percentages := pcts, verificationRate := rate * 100 })

/-- What `display_identifications` computes and prints: the quick-stats
line and the summary statistics. -/
structure DisplayReport where
  total : Nat
  verified : Nat
  unknown : Nat
  verifiedPct : ℚ
  unknownPct : ℚ
  summary : Option SummaryStats
deriving DecidableEq, Repr

/-- `exercise4.display_identifications` (lines 85-161): categorizes every
entry, then builds the quick-stats line
`{verified/total*100:.0f}` / `{unknown/total*100:.0f}` with Python
division, then runs `display_summary_statistics` on the categorized
results. -/
def display_identifications (identifications : List (String × String)) :
    Except String DisplayReport := do
  let categorized := identifications.map (fun p => categorize_identification p.1 p.2)
  let total := categorized.length
  let verified := (categorized.filter
    (fun r => r.category = "✅ Verified Notable Person")).length
  let unknown := (categorized.filter
    (fun r => r.category = "❌ Unknown/Non-Notable")).length
  let vp ← pyDivNat verified total
  let up ← pyDivNat unknown total
  let summary ← display_summary_statistics categorized
  Except.ok { total := total, verified := verified, unknown := unknown,
              verifiedPct := vp * 100, unknownPct := up * 100, summary := summary }

/-! ## Helper lemmas about substring containment -/

theorem subAt_nil (h : List Char) : subAt [] h = true := by
  cases h <;> rfl

theorem subAt_append (n : List Char) : ∀ h t, subAt n h = true → subAt n (h ++ t) = true := by
  induction n with
  | nil => intro h t _; exact subAt_nil _
  | cons a as ih =>
    intro h t hn
    cases h with
    | nil => simp [subAt] at hn
    | cons b bs =>
      simp only [subAt, Bool.and_eq_true] at hn
      simp only [List.cons_append, subAt, Bool.and_eq_true]
      exact ⟨hn.1, ih bs t hn.2⟩

theorem subAt_self_append (n t : List Char) : subAt n (n ++ t) = true := by
  induction n with
  | nil => exact subAt_nil _
  | cons a as ih => simp [subAt, ih]

theorem hasSub_nil_needle (h : List Char) : hasSub [] h = true := by
  induction h with
  | nil => rfl
  | cons c t ih => simp [hasSub, subAt]

theorem hasSub_append_left (n : List Char) : ∀ a b, hasSub n a = true → hasSub n (a ++ b) = true := by
  intro a
  induction a with
  | nil =>
    intro b h
    cases n with
    | nil => simpa using hasSub_nil_needle b
    | cons x xs => simp [hasSub, subAt] at h
  | cons c t ih =>
    intro b h
    simp only [hasSub, Bool.or_eq_true] at h
    simp only [List.cons_append, hasSub, Bool.or_eq_true]
    cases h with
    | inl hp => exact Or.inl (by simpa using subAt_append n (c :: t) b hp)
    | inr hs => exact Or.inr (ih b hs)

theorem hasSub_append_right (n : List Char) : ∀ a b, hasSub n b = true → hasSub n (a ++ b) = true := by
  intro a
  induction a with
  | nil => intro b h; simpa using h
  | cons c t ih =>
    intro b h
    simp only [List.cons_append, hasSub, Bool.or_eq_true]
    exact Or.inr (ih b h)

theorem strContains_append_left (a b n : String) (h : strContains a n = true) :
    strContains (a ++ b) n = true := by
  unfold strContains at *
  rw [String.data_append]
  exact hasSub_append_left n.data a.data b.data h

theorem strContains_append_right (a b n : String) (h : strContains b n = true) :
    strContains (a ++ b) n = true := by
  unfold strContains at *
  rw [String.data_append]
  exact hasSub_append_right n.data a.data b.data h

/-! ## Claims about the categorizer -/

/-- Claim C10: `categorize_identification` passes its two inputs through
unchanged: the result's `name` is the given full name verbatim and its
`details` is the given identification string verbatim. -/
theorem categorize_preserves_inputs (full_name identification : String) :
    (categorize_identification full_name identification).name = full_name ∧
    (categorize_identification full_name identification).details = identification :=
  ⟨rfl, rfl⟩

/-- Claim C7: any identification containing `"(Source: Wikipedia -"` is
categorized as the verified-notable category with High confidence,
regardless of what else the string contains. -/
theorem categorize_wikipedia_marker_dominates (full_name identification : String)
    (h : strContains identification "(Source: Wikipedia -" = true) :
    (categorize_identification full_name identification).category
        = "✅ Verified Notable Person" ∧
    (categorize_identification full_name identification).confidence = "High" := by
  simp [categorize_identification, categoryOf, h]

/-- Witness for C7 at a string that also contains "Error", the
no-article note and fictional keywords. -/
theorem categorize_wikipedia_marker_dominates_witness :
    strContains "Error movie character No Wikipedia article found (Source: Wikipedia - u)"
        "(Source: Wikipedia -" = true ∧
    ((categorize_identification "X Y"
        "Error movie character No Wikipedia article found (Source: Wikipedia - u)").category
        = "✅ Verified Notable Person" ∧
      (categorize_identification "X Y"
        "Error movie character No Wikipedia article found (Source: Wikipedia - u)").confidence
        = "High") :=
  ⟨by decide,
   categorize_wikipedia_marker_dominates "X Y"
     "Error movie character No Wikipedia article found (Source: Wikipedia - u)" (by decide)⟩

theorem rule4_keyword_lower (i : String) :
    (fictionalKeywords.any fun kw => containsCI i kw)
      = (fictionalKeywords.any fun kw => strContains (strToLower i) kw) := by
  simp only [fictionalKeywords, List.any_cons, List.any_nil, containsCI]
  rw [show strToLower "fictional" = "fictional" by decide,
      show strToLower "character" = "character" by decide,
      show strToLower "anime" = "anime" by decide,
      show strToLower "movie" = "movie" by decide,
      show strToLower "tv show" = "tv show" by decide,
      show strToLower "novel" = "novel" by decide]

/-- Claim C3: the code's categorizer implements exactly the spec's five
ordered rules, first match wins: `categorize_identification` agrees with
the rule list `specCategory` (stated over the spec's category/confidence
enumerations) rendered to the code's display strings, with name and
details passed through. -/
theorem categorize_matches_spec_rules (full_name identification : String) :
    categorize_identification full_name identification =
      { name := full_name
        category := renderCategory (specCategory identification).1
        confidence := renderConfidence (specCategory identification).2
        details := identification } := by
  unfold categorize_identification categoryOf specCategory
  rw [rule4_keyword_lower]
  repeat' split
  all_goals rfl

/-! ## Claim about report aggregation on empty input -/

/-- Claim C1 (code bug): on an empty identifications mapping the quick-stats
line of `display_identifications` computes `verified/total*100` with
`total = 0` and raises `ZeroDivisionError`, while
`display_summary_statistics` alone does guard `total == 0` with its
"No results to display" early return. The repository's own test
`test_display_identifications_empty_results` expects the non-raising
behavior the claim describes. -/
theorem display_empty_divides_by_zero :
    display_identifications [] = Except.error "ZeroDivisionError: division by zero" ∧
    display_summary_statistics [] = Except.ok none :=
  ⟨rfl, rfl⟩

/-! ## Claims about the fallback orchestrator -/

/-- Claim C2: the orchestrator's strict branch order. When the lookup
result has `found=true` and a truthy (present, non-empty) summary, the
output is the summarize call's result, with the exact
`"\n\n(Source: Wikipedia - {url})"` suffix appended when a (truthy) url is
present — so the url occurs in the output verbatim — and nothing appended
otherwise. In every other case the output is the fallback identify call's
result with the exact error note when the lookup result carries a (truthy)
error, else the exact no-article note. -/
theorem orchestrator_branch_order (inv : String → String) (idf : String → String → String)
    (r : LookupResult) (first last : String) :
    (r.found = true → truthyS r.summary = true →
      (∀ u, r.url = some u → u ≠ "" →
        identify_person_with_search inv idf r first last
          = inv (summarizePrompt r) ++ "\n\n(Source: Wikipedia - " ++ u ++ ")" ∧
        ∃ pre suf, identify_person_with_search inv idf r first last = pre ++ u ++ suf) ∧
      (truthyS r.url = false →
        identify_person_with_search inv idf r first last = inv (summarizePrompt r))) ∧
    ((r.found && truthyS r.summary) = false →
      (truthyS r.error = true →
        identify_person_with_search inv idf r first last
          = idf first last ++ "\n\n(Note: Wikipedia search encountered an error)") ∧
      (truthyS r.error = false →
        identify_person_with_search inv idf r first last
          = idf first last ++ "\n\n(Note: No Wikipedia article found)")) := by
  constructor
  · intro hf hs
    constructor
    · intro u hu hne
      have ht : truthyS (some u) = true := by simp [truthyS, hne]
      constructor
      · simp [identify_person_with_search, hf, hs, hu, ht]
      · refine ⟨inv (summarizePrompt r) ++ "\n\n(Source: Wikipedia - ", ")", ?_⟩
        simp [identify_person_with_search, hf, hs, hu, ht]
    · intro hu
      simp [identify_person_with_search, hf, hs, hu]
  · intro hfs
    constructor <;> intro he <;> simp [identify_person_with_search, hfs, he]

/-- Witness for C2: the found-with-summary-and-url branch and the
not-found branch at concrete inputs. -/
theorem orchestrator_branch_order_witness :
    identify_person_with_search (fun _ => "S") (fun _ _ => "F")
        { found := true, name := "Isaac Newton", summary := some "an English mathematician",
          url := some "https://en.wikipedia.org/wiki/Isaac_Newton" } "Isaac" "Newton"
      = "S\n\n(Source: Wikipedia - https://en.wikipedia.org/wiki/Isaac_Newton)" ∧
    identify_person_with_search (fun _ => "S") (fun _ _ => "F")
        { found := false, name := "Random Person" } "Random" "Person"
      = "F\n\n(Note: No Wikipedia article found)" := by
  constructor
  · have h := ((orchestrator_branch_order (fun _ => "S") (fun _ _ => "F")
      { found := true, name := "Isaac Newton", summary := some "an English mathematician",
        url := some "https://en.wikipedia.org/wiki/Isaac_Newton" } "Isaac" "Newton").1
      rfl (by decide)).1 "https://en.wikipedia.org/wiki/Isaac_Newton" rfl (by decide)
    rw [h.1]
    rfl
  · have h := ((orchestrator_branch_order (fun _ => "S") (fun _ _ => "F")
      { found := false, name := "Random Person" } "Random" "Person").2 (by decide)).2
      (by decide)
    rw [h]
    rfl

/-- Claim C9: when the lookup succeeded with a summary and a url but the
generative summarize call returns an error string containing "Error", the
orchestrator still appends the Wikipedia provenance tag; the categorizer
then classifies the output as verified-notable with High confidence, so
the provenance tag masks the generative error from the error rule. -/
theorem provenance_masks_generative_error (inv : String → String)
    (idf : String → String → String) (r : LookupResult) (first last u : String)
    (hf : r.found = true) (hs : truthyS r.summary = true)
    (hu : r.url = some u) (hne : u ≠ "")
    (herr : strContains (inv (summarizePrompt r)) "Error" = true) :
    strContains (identify_person_with_search inv idf r first last) "Error" = true ∧
    (categorize_identification r.name
        (identify_person_with_search inv idf r first last)).category
      = "✅ Verified Notable Person" ∧
    (categorize_identification r.name
        (identify_person_with_search inv idf r first last)).confidence = "High" := by
  have ht : truthyS (some u) = true := by simp [truthyS, hne]
  have hout : identify_person_with_search inv idf r first last
      = inv (summarizePrompt r) ++ "\n\n(Source: Wikipedia - " ++ u ++ ")" := by
    simp [identify_person_with_search, hf, hs, hu, ht]
  have hmk : strContains (identify_person_with_search inv idf r first last)
      "(Source: Wikipedia -" = true := by
    rw [hout]
    apply strContains_append_left
    apply strContains_append_left
    exact strContains_append_right _ _ _ (by decide)
  refine ⟨?_, ?_⟩
  · rw [hout]
    apply strContains_append_left
    apply strContains_append_left
    exact strContains_append_left _ _ _ herr
  · simp [categorize_identification, categoryOf, hmk]

/-- Witness for C9 with a failing summarize call returning
"Error: API returned status 500". -/
theorem provenance_masks_generative_error_witness :
    strContains ((fun _ => "Error: API returned status 500")
        (summarizePrompt { found := true, name := "N A", summary := some "s",
                           url := some "u" })) "Error" = true ∧
    (strContains (identify_person_with_search (fun _ => "Error: API returned status 500")
        (fun _ _ => "F")
        { found := true, name := "N A", summary := some "s", url := some "u" }
        "N" "A") "Error" = true ∧
      (categorize_identification "N A"
        (identify_person_with_search (fun _ => "Error: API returned status 500")
          (fun _ _ => "F")
          { found := true, name := "N A", summary := some "s", url := some "u" }
          "N" "A")).category = "✅ Verified Notable Person" ∧
      (categorize_identification "N A"
        (identify_person_with_search (fun _ => "Error: API returned status 500")
          (fun _ _ => "F")
          { found := true, name := "N A", summary := some "s", url := some "u" }
          "N" "A")).confidence = "High") := by
  refine ⟨by decide, ?_⟩
  have h := provenance_masks_generative_error (fun _ => "Error: API returned status 500")
    (fun _ _ => "F")
    { found := true, name := "N A", summary := some "s", url := some "u" }
    "N" "A" "u" rfl (by decide) rfl (by decide) (by decide)
  exact ⟨h.1, h.2.1, h.2.2⟩

/-! ## Claim about generative-text failure handling -/

/-- Claim C5: `identify_person` and `invoke` are total (modelled by their
return type: every failure of the wrapped `try` body is returned as a
string), and on a transport failure or a non-200 response status the
returned string contains the literal substring "Error". -/
theorem generative_failures_return_error_strings (first last prompt : String)
    (maxTokens : Nat) (reason : String) (status : Nat) (body : Except String JVal)
    (hstatus : status ≠ 200) :
    strContains (identify_person first last (HttpResp.transportFail reason)) "Error" = true ∧
    strContains (invoke prompt maxTokens (HttpResp.transportFail reason)) "Error" = true ∧
    strContains (identify_person first last (HttpResp.resp status body)) "Error" = true ∧
    strContains (invoke prompt maxTokens (HttpResp.resp status body)) "Error" = true := by
  refine ⟨?_, ?_, ?_, ?_⟩
  · exact strContains_append_left "Error identifying person: " reason "Error" (by decide)
  · exact strContains_append_left "Error: " reason "Error" (by decide)
  · have h : identify_person first last (HttpResp.resp status body)
        = "Error identifying person: Error code: " ++ toString status := by
      simp [identify_person, hstatus]
    rw [h]
    exact strContains_append_left _ _ _ (by decide)
  · have h : invoke prompt maxTokens (HttpResp.resp status body)
        = "Error: API returned status " ++ toString status := by
      simp [invoke, hstatus]
    rw [h]
    exact strContains_append_left _ _ _ (by decide)

/-- Witness for C5 at a timeout and a 500 status. -/
theorem generative_failures_return_error_strings_witness :
    (500 : Nat) ≠ 200 ∧
    (strContains (identify_person "A" "B" (HttpResp.transportFail "timed out")) "Error" = true ∧
      strContains (invoke "p" 150 (HttpResp.transportFail "timed out")) "Error" = true ∧
      strContains (identify_person "A" "B" (HttpResp.resp 500 (Except.ok JVal.null))) "Error" = true ∧
      strContains (invoke "p" 150 (HttpResp.resp 500 (Except.ok JVal.null))) "Error" = true) :=
  ⟨by decide,
   generative_failures_return_error_strings "A" "B" "p" 150 "timed out" 500
     (Except.ok JVal.null) (by decide)⟩

/-! ## Claim about malformed names in the per-person tool entry points -/

/-- Claim C8: a name that `split(' ', 1)` cannot break into two parts is
rejected by both `search_wikipedia_for_person` and
`identify_person_with_llm` with the descriptive invalid-format string, and
neither the Wikipedia lookup nor the generative call is performed (the
recorded call trace is empty). -/
theorem malformed_name_skips_network (lookup : String → String → LookupResult)
    (idf : String → String → String) (person_name : String)
    (h : (pySplitOnce person_name).length ≠ 2) :
    search_wikipedia_for_person lookup person_name
      = ("Invalid name format. Expected \x27FirstName LastName\x27", []) ∧
    identify_person_with_llm idf person_name
      = ("Invalid name format. Expected \x27FirstName LastName\x27", []) := by
  rcases e : splitOnceChars person_name.data with ⟨pre, post⟩
  cases post with
  | none =>
    constructor <;>
      simp [search_wikipedia_for_person, identify_person_with_llm, pySplitOnce, e]
  | some rest =>
    exact absurd (by simp [pySplitOnce, e]) h

/-- Witness for C8 at the single-word name "Madonna". -/
theorem malformed_name_skips_network_witness :
    (pySplitOnce "Madonna").length ≠ 2 ∧
    (search_wikipedia_for_person (fun _ _ => { found := false, name := "" }) "Madonna"
        = ("Invalid name format. Expected \x27FirstName LastName\x27", []) ∧
      identify_person_with_llm (fun _ _ => "") "Madonna"
        = ("Invalid name format. Expected \x27FirstName LastName\x27", [])) :=
  ⟨by decide,
   malformed_name_skips_network (fun _ _ => { found := false, name := "" })
     (fun _ _ => "") "Madonna" (by decide)⟩

/-! ## Helper lemmas about the insertion-ordered dict and the batch loop -/

theorem any_fst_iff_mem (d : List (String × String)) (k : String) :
    d.any (fun p => p.1 = k) = true ↔ k ∈ d.map Prod.fst := by
  rw [List.any_eq_true]
  constructor
  · rintro ⟨p, hp, he⟩
    rw [List.mem_map]
    exact ⟨p, hp, by simpa using he⟩
  · intro hm
    rcases List.mem_map.mp hm with ⟨p, hp, he⟩
    exact ⟨p, hp, by simpa using he⟩

theorem pyDictSet_keys (d : List (String × String)) (k v : String) :
    (pyDictSet d k v).map Prod.fst
      = if k ∈ d.map Prod.fst then d.map Prod.fst else d.map Prod.fst ++ [k] := by
  unfold pyDictSet
  by_cases h : d.any (fun p => p.1 = k) = true
  · rw [if_pos h, if_pos ((any_fst_iff_mem d k).mp h), List.map_map]
    apply List.map_congr_left
    intro p _
    by_cases hp : p.1 = k
    · simp [hp]
    · simp [hp]
  · rw [if_neg h, if_neg (fun hm => h ((any_fst_iff_mem d k).mpr hm))]
    simp

theorem find_replace_hit (d : List (String × String)) (k v : String)
    (h : d.any (fun p => p.1 = k) = true) :
    (d.map (fun p => if p.1 = k then (k, v) else p)).find? (fun p => p.1 = k)
      = some (k, v) := by
  induction d with
  | nil => simp at h
  | cons q rest ih =>
    by_cases hq : q.1 = k
    · simp [List.find?, hq]
    · simp only [List.any_cons, Bool.or_eq_true, decide_eq_true_eq] at h
      rcases h with h | h
      · exact absurd h hq
      · simpa [List.find?, hq] using ih h

theorem find_append_miss (d : List (String × String)) (k v : String)
    (h : d.any (fun p => p.1 = k) = false) :
    (d ++ [(k, v)]).find? (fun p => p.1 = k) = some (k, v) := by
  induction d with
  | nil => simp [List.find?]
  | cons q rest ih =>
    simp only [List.any_cons, Bool.or_eq_false_iff, decide_eq_false_iff_not] at h
    simpa [List.find?, h.1] using ih (by simp [h.2])

theorem find_replace_other (d : List (String × String)) (k v n : String) (hn : n ≠ k) :
    (d.map (fun p => if p.1 = k then (k, v) else p)).find? (fun p => p.1 = n)
      = d.find? (fun p => p.1 = n) := by
  induction d with
  | nil => rfl
  | cons q rest ih =>
    have hkn : ¬(k = n) := fun he => hn he.symm
    by_cases hq : q.1 = k
    · have hqn : ¬(q.1 = n) := by rw [hq]; exact hkn
      simpa [List.find?, hq, hkn, hqn] using ih
    · have hmap : (q :: rest).map (fun p => if p.1 = k then (k, v) else p)
          = q :: rest.map (fun p => if p.1 = k then (k, v) else p) := by
        simp [hq]
      rw [hmap]
      by_cases hqn : q.1 = n
      · rw [List.find?_cons_of_pos _ (by simpa using hqn),
            List.find?_cons_of_pos _ (by simpa using hqn)]
      · rw [List.find?_cons_of_neg _ (by simpa using hqn),
            List.find?_cons_of_neg _ (by simpa using hqn)]
        exact ih

theorem find_append_other (d : List (String × String)) (k v n : String) (hn : n ≠ k) :
    (d ++ [(k, v)]).find? (fun p => p.1 = n) = d.find? (fun p => p.1 = n) := by
  have hkn : ¬(k = n) := fun he => hn he.symm
  induction d with
  | nil => simp [List.find?, hkn]
  | cons q rest ih =>
    by_cases hqn : q.1 = n
    · simp [List.find?, hqn]
    · simpa [List.find?, hqn] using ih

theorem pyDictSet_find (d : List (String × String)) (k v n : String) :
    pyDictFind (pyDictSet d k v) n = if n = k then some v else pyDictFind d n := by
  unfold pyDictSet pyDictFind
  cases hany : d.any (fun p => p.1 = k) with
  | true =>
    rw [if_pos rfl]
    by_cases hn : n = k
    · subst hn
      rw [if_pos rfl, find_replace_hit d n v hany]
      rfl
    · rw [if_neg hn, find_replace_other d k v n hn]
  | false =>
    rw [if_neg (by simp)]
    by_cases hn : n = k
    · subst hn
      rw [if_pos rfl, find_append_miss d n v hany]
      rfl
    · rw [if_neg hn, find_append_other d k v n hn]

theorem batchAux_append (oracle : Nat → String) (ps : List (String × String))
    (p : String × String) :
    ∀ (k : Nat) (acc : List (String × String)),
      batchAux oracle k (ps ++ [p]) acc
        = pyDictSet (batchAux oracle k ps acc) (fullNameOf p) (oracle (k + ps.length)) := by
  induction ps with
  | nil => intro k acc; simp [batchAux]
  | cons q rest ih =>
    intro k acc
    show batchAux oracle (k + 1) (rest ++ [p]) (pyDictSet acc (fullNameOf q) (oracle k))
        = pyDictSet (batchAux oracle (k + 1) rest (pyDictSet acc (fullNameOf q) (oracle k)))
          (fullNameOf p) (oracle (k + (rest.length + 1)))
    rw [ih]
    have h1 : k + 1 + rest.length = k + (rest.length + 1) := by omega
    rw [h1]

theorem lastOccFrom_append (n m : String) (names : List String) :
    ∀ k : Nat, lastOccFrom n k (names ++ [m])
      = if m = n then some (k + names.length) else lastOccFrom n k names := by
  induction names with
  | nil =>
    intro k
    by_cases hm : m = n <;> simp [lastOccFrom, hm]
  | cons q rest ih =>
    intro k
    show (match lastOccFrom n (k + 1) (rest ++ [m]) with
          | some i => some i
          | none => if q = n then some k else none)
        = if m = n then some (k + (rest.length + 1))
          else
            match lastOccFrom n (k + 1) rest with
            | some i => some i
            | none => if q = n then some k else none
    rw [ih (k + 1)]
    by_cases hm : m = n
    · rw [if_pos hm, if_pos hm]
      show some (k + 1 + rest.length) = some (k + (rest.length + 1))
      have h1 : k + 1 + rest.length = k + (rest.length + 1) := by omega
      rw [h1]
    · rw [if_neg hm, if_neg hm]

/-! ## Claim about the batch runner -/

/-- Claim C6: `batch_identify_people_with_search` makes one orchestration
call per input entry, in input order (entry `i` receives the `i`-th call's
result, `oracle i`, duplicates included); the mapping's keys are the full
names in first-seen order, and the value stored for a name is the result
of the last call made for that name. -/
theorem batch_order_and_last_write (oracle : Nat → String)
    (people : List (String × String)) :
    ((batch_identify_people_with_search oracle people).map Prod.fst
        = firstSeenKeys (people.map fullNameOf)) ∧
    ∀ n, pyDictFind (batch_identify_people_with_search oracle people) n
        = (lastOccIdx (people.map fullNameOf) n).map oracle := by
  induction people using List.reverseRecOn with
  | nil => exact ⟨rfl, fun n => rfl⟩
  | append_singleton ps p ih =>
    have hb : batch_identify_people_with_search oracle (ps ++ [p])
        = pyDictSet (batch_identify_people_with_search oracle ps) (fullNameOf p)
            (oracle ps.length) := by
      unfold batch_identify_people_with_search
      rw [batchAux_append oracle ps p 0]
      simp
    have hnames : (ps ++ [p]).map fullNameOf = ps.map fullNameOf ++ [fullNameOf p] := by
      simp
    constructor
    · rw [hb, pyDictSet_keys, ih.1, hnames]
      unfold firstSeenKeys
      rw [List.foldl_append]
      rfl
    · intro n
      rw [hb, pyDictSet_find, ih.2 n, hnames]
      unfold lastOccIdx
      rw [lastOccFrom_append n (fullNameOf p) (ps.map fullNameOf) 0]
      by_cases hn : n = fullNameOf p
      · rw [if_pos hn, if_pos hn.symm]
        simp [List.length_map]
      · rw [if_neg hn, if_neg (fun he => hn he.symm)]

/-! ## Claims about the authoritative lookup -/

/-- Claim C4 counterexample: the OpenSearch body `["John Doe", 5]` is a
structurally unexpected response (a number where the title list belongs).
The code's `search_results[1][0]` then raises `TypeError`, which neither
`except requests.RequestException` nor `except (IndexError, KeyError)`
catches, so `search_person` raises to its caller instead of returning a
result dict — refuting "this call never propagates a transport or parsing
failure to its caller". -/
theorem search_person_raises_on_nonlist_titles :
    search_person "John" "Doe"
      (Except.ok (JVal.jarr [JVal.jstr "John Doe", JVal.jnum 5]))
      (HttpResp.resp 200 (Except.ok (JVal.jobj [])))
      = Except.error PyErr.typeError := rfl

theorem search_person_raw_cases (first last : String) (searchResp : Except String JVal)
    (summaryResp : HttpResp) (r : SearchResult)
    (h : search_person_raw first last searchResp summaryResp = Except.ok r) :
    (∃ reason, r = searchFail (first ++ " " ++ last) reason) ∨
    (r = noResultsFound (first ++ " " ++ last) ∧
      ∃ sr titles, searchResp = Except.ok sr ∧ pySubscript sr 1 = Except.ok titles ∧
        pyTruthy titles = false) ∨
    (r.found = true ∧ r.title.isSome = true ∧ r.summary.isSome = true) := by
  simp only [search_person_raw] at h
  split at h
  · exact Or.inl ⟨_, (Except.ok.inj h).symm⟩
  · rename_i sr
    split at h
    · exact absurd h (by simp)
    · rename_i titles heqT
      split at h
      · repeat' split at h
        all_goals first
          | exact Except.noConfusion h
          | exact Or.inl ⟨_, (Except.ok.inj h).symm⟩
          | exact Or.inr (Or.inr (by
              cases Except.ok.inj h
              exact ⟨rfl, by simp, by simp⟩))
      · rename_i hTr
        exact Or.inr (Or.inl ⟨(Except.ok.inj h).symm, sr, titles, rfl, heqT,
          by simpa using hTr⟩)

theorem search_person_ok_cases (first last : String) (searchResp : Except String JVal)
    (summaryResp : HttpResp) (r : SearchResult)
    (h : search_person first last searchResp summaryResp = Except.ok r) :
    (∃ reason, r = searchFail (first ++ " " ++ last) reason) ∨
    (r = noResultsFound (first ++ " " ++ last) ∧
      ∃ sr titles, searchResp = Except.ok sr ∧ pySubscript sr 1 = Except.ok titles ∧
        pyTruthy titles = false) ∨
    (r.found = true ∧ r.title.isSome = true ∧ r.summary.isSome = true) ∨
    r = unexpectedFormat (first ++ " " ++ last) := by
  unfold search_person at h
  cases hraw : search_person_raw first last searchResp summaryResp with
  | ok r2 =>
    rw [hraw] at h
    cases Except.ok.inj h
    rcases search_person_raw_cases first last searchResp summaryResp _ hraw with
      hc | hc | hc
    · exact Or.inl hc
    · exact Or.inr (Or.inl hc)
    · exact Or.inr (Or.inr (Or.inl hc))
  | error e =>
    rw [hraw] at h
    cases e with
    | indexError => exact Or.inr (Or.inr (Or.inr (Except.ok.inj h).symm))
    | keyError => exact Or.inr (Or.inr (Or.inr (Except.ok.inj h).symm))
    | typeError => exact Except.noConfusion h
    | attributeError => exact Except.noConfusion h

/-- Claim C4 (amended): the lookup returns (rather than raises) a
`found=false` result tagged with an `error` for every transport failure of
either HTTP call (the search call, and the summary call whenever the flow
reaches it), never lets `IndexError` or `KeyError` escape to its
caller — a `try`-body escape of either class becomes the tagged
"unexpected format" result — returns the untagged `found=false` result
exactly for a search body whose candidate-titles slot is readable and
falsy (the error-free not-found case is precisely the genuine no-match
case), and every `found=true` result carries a title and a summary. (The
original claim's "never raises for ANY structurally unexpected response"
is refuted by the counterexample: responses whose traversal hits a
non-subscriptable value raise TypeError/AttributeError to the caller.) -/
theorem search_person_amended (first last : String) (searchResp : Except String JVal)
    (summaryResp : HttpResp) :
    (∀ r, search_person first last searchResp summaryResp = Except.ok r →
        r.found = true → r.title.isSome = true ∧ r.summary.isSome = true) ∧
    (∀ reason, searchResp = Except.error reason →
        search_person first last searchResp summaryResp
          = Except.ok (searchFail (first ++ " " ++ last) reason)) ∧
    (∀ sr titles, searchResp = Except.ok sr → pySubscript sr 1 = Except.ok titles →
        pyTruthy titles = false →
        search_person first last searchResp summaryResp
          = Except.ok (noResultsFound (first ++ " " ++ last))) ∧
    (∀ r, search_person first last searchResp summaryResp = Except.ok r →
        r.found = false → r.error = none →
        ∃ sr titles, searchResp = Except.ok sr ∧ pySubscript sr 1 = Except.ok titles ∧
          pyTruthy titles = false) ∧
    (∀ e, search_person_raw first last searchResp summaryResp = Except.error e →
        e = PyErr.indexError ∨ e = PyErr.keyError →
        search_person first last searchResp summaryResp
          = Except.ok (unexpectedFormat (first ++ " " ++ last))) ∧
    (search_person first last searchResp summaryResp ≠ Except.error PyErr.indexError ∧
      search_person first last searchResp summaryResp ≠ Except.error PyErr.keyError) ∧
    (∀ sr titles t lenSr urlV reason, searchResp = Except.ok sr →
        pySubscript sr 1 = Except.ok titles → pyTruthy titles = true →
        pySubscript titles 0 = Except.ok (JVal.jstr t) → pyLen sr = Except.ok lenSr →
        urlFromSearch sr lenSr = Except.ok urlV →
        summaryResp = HttpResp.transportFail reason →
        search_person first last searchResp summaryResp
          = Except.ok (searchFail (first ++ " " ++ last) reason)) := by
  refine ⟨?_, ?_, ?_, ?_, ?_, ?_, ?_⟩
  · intro r h hf
    rcases search_person_ok_cases first last searchResp summaryResp r h with
      ⟨reason, hc⟩ | hc | hc | hc
    · rw [hc] at hf; exact absurd hf (by simp [searchFail])
    · rw [hc.1] at hf; exact absurd hf (by simp [noResultsFound])
    · exact ⟨hc.2.1, hc.2.2⟩
    · rw [hc] at hf; exact absurd hf (by simp [unexpectedFormat])
  · intro reason he
    subst he
    rfl
  · intro sr titles hsr ht htr
    subst hsr
    unfold search_person
    simp only [search_person_raw, ht, htr]
    rfl
  · intro r h hf he
    rcases search_person_ok_cases first last searchResp summaryResp r h with
      ⟨reason, hc⟩ | hc | hc | hc
    · rw [hc] at he; exact absurd he (by simp [searchFail])
    · exact hc.2
    · rw [hc.1] at hf; exact absurd hf (by simp)
    · rw [hc] at he; exact absurd he (by simp [unexpectedFormat])
  · intro e hraw hdisj
    unfold search_person
    rw [hraw]
    rcases hdisj with h | h <;> subst h <;> rfl
  · refine ⟨?_, ?_⟩ <;>
      (intro hcontra
       unfold search_person at hcontra
       cases hraw : search_person_raw first last searchResp summaryResp with
       | ok r2 => rw [hraw] at hcontra; simp at hcontra
       | error e => rw [hraw] at hcontra; cases e <;> simp at hcontra)
  · intro sr titles t lenSr urlV reason hsr ht htr ht0 hlen hurl hsum
    subst hsr
    subst hsum
    unfold search_person
    simp only [search_person_raw, ht, htr, ht0, hlen, hurl]
    rfl

/-- Witness for C4 (amended): a search-call transport failure yields the
tagged failure dict; an empty candidate list yields the untagged not-found
dict; an empty-list body (an `IndexError`-shaped structural mismatch) is
caught into the unexpected-format dict; and a summary-call transport
failure yields the tagged failure dict. -/
theorem search_person_amended_witness :
    search_person "Ada" "Lovelace" (Except.error "timed out")
        (HttpResp.resp 200 (Except.ok (JVal.jobj [])))
      = Except.ok (searchFail "Ada Lovelace" "timed out") ∧
    search_person "Ada" "Lovelace"
        (Except.ok (JVal.jarr [JVal.jstr "Ada Lovelace", JVal.jarr []]))
        (HttpResp.resp 200 (Except.ok (JVal.jobj [])))
      = Except.ok (noResultsFound "Ada Lovelace") ∧
    search_person "Ada" "Lovelace" (Except.ok (JVal.jarr []))
        (HttpResp.resp 200 (Except.ok (JVal.jobj [])))
      = Except.ok (unexpectedFormat "Ada Lovelace") ∧
    search_person "Ada" "Lovelace"
        (Except.ok (JVal.jarr [JVal.jstr "q", JVal.jarr [JVal.jstr "Ada Lovelace"],
          JVal.jarr [], JVal.jarr [JVal.jstr "u"]]))
        (HttpResp.transportFail "connection reset")
      = Except.ok (searchFail "Ada Lovelace" "connection reset") :=
  ⟨(search_person_amended "Ada" "Lovelace" (Except.error "timed out")
      (HttpResp.resp 200 (Except.ok (JVal.jobj [])))).2.1 "timed out" rfl,
   (search_person_amended "Ada" "Lovelace"
      (Except.ok (JVal.jarr [JVal.jstr "Ada Lovelace", JVal.jarr []]))
      (HttpResp.resp 200 (Except.ok (JVal.jobj [])))).2.2.1
      (JVal.jarr [JVal.jstr "Ada Lovelace", JVal.jarr []]) (JVal.jarr []) rfl rfl rfl,
   (search_person_amended "Ada" "Lovelace" (Except.ok (JVal.jarr []))
      (HttpResp.resp 200 (Except.ok (JVal.jobj [])))).2.2.2.2.1
      PyErr.indexError rfl (Or.inl rfl),
   (search_person_amended "Ada" "Lovelace"
      (Except.ok (JVal.jarr [JVal.jstr "q", JVal.jarr [JVal.jstr "Ada Lovelace"],
        JVal.jarr [], JVal.jarr [JVal.jstr "u"]]))
      (HttpResp.transportFail "connection reset")).2.2.2.2.2.2
      (JVal.jarr [JVal.jstr "q", JVal.jarr [JVal.jstr "Ada Lovelace"],
        JVal.jarr [], JVal.jarr [JVal.jstr "u"]])
      (JVal.jarr [JVal.jstr "Ada Lovelace"]) "Ada Lovelace" 4 (JVal.jstr "u")
      "connection reset" rfl rfl rfl rfl rfl rfl rfl⟩
